import Mathlib

/-!
Verification development for the `wings` per-host container agent
(`src/main.go`).  The Go source is shallowly embedded: pure helpers become
Lean functions on `String`/`List Char`; each HTTP handler becomes a function
from a decoded request body and an environment of external oracles (the
container runtime subprocess, the filesystem) to the response it writes plus
the ordered list of side effects it performs; the websocket console handler
becomes a function from the list of inbound frames to the ordered list of
bridge effects (frames sent, subprocesses spawned, commands executed).
-/

namespace Wings

/-! ## Identity Resolver (main.go lines 63-80) -/

/-- Model of Go `strings.Split(s, string(sep))` for a single-character
separator, on the character list of the string: splits around every
occurrence of `sep`.  Like the Go function it always returns at least one
element (`[[]]` on the empty input). -/
def goSplit (sep : Char) : List Char → List (List Char)
  | [] => [[]]
  | c :: cs =>
    if c = sep then [] :: goSplit sep cs
    else
      match goSplit sep cs with
      | [] => [[c]]
      | r :: rs => (c :: r) :: rs

/-- Embedding of `extractUserId` (main.go 63-69): split the email on "@";
if the resulting slice is non-empty return its first element, otherwise
return the sentinel "user". -/
def extractUserId (email : String) : String :=
  match goSplit '@' email.data with
  | [] => "user"
  | p :: _ => ⟨p⟩

/-- Character class of the regexp `[^a-zA-Z0-9.-]` in main.go line 71:
`isDockerNameChar c` holds exactly when `c` is NOT matched by that regexp,
i.e. when `c` is an ASCII letter, an ASCII digit, a dot or a hyphen. -/
def isDockerNameChar (c : Char) : Bool :=
  ('a' ≤ c && c ≤ 'z') || ('A' ≤ c && c ≤ 'Z') || ('0' ≤ c && c ≤ '9') ||
    c = '.' || c = '-'

/-- Embedding of `sanitizeDockerName` (main.go 73-75):
`dockerNameRe.ReplaceAllString(s, "")` deletes every character matched by
`[^a-zA-Z0-9.-]`, i.e. keeps exactly the characters in the class. -/
def sanitizeDockerName (s : String) : String :=
  ⟨s.data.filter isDockerNameChar⟩

/-- Embedding of `buildContainerId` (main.go 77-80):
`sanitizeDockerName(serverName + "-" + userId)`. -/
def buildContainerId (serverName userId : String) : String :=
  sanitizeDockerName (serverName ++ "-" ++ userId)

/-- Embedding of `selectImage` (main.go 82-84): ignores its argument and
returns the fixed image tag. -/
def selectImage (software : String) : String :=
  "itzg/minecraft-server:latest"

/-- Spec-side description of the user id: the substring of the email before
the first "@", the whole string when no "@" is present. -/
def userIdSpec (email : String) : String :=
  ⟨email.data.takeWhile (fun c => c ≠ '@')⟩

/-! ### Helper lemmas about `goSplit` -/

theorem goSplit_ne_nil (sep : Char) (l : List Char) : goSplit sep l ≠ [] := by
  induction l with
  | nil => simp [goSplit]
  | cons c cs ih =>
    rw [goSplit]
    by_cases h : c = sep
    · simp [h]
    · cases hr : goSplit sep cs with
      | nil => exact absurd hr ih
      | cons r rs => simp [h, hr]

theorem goSplit_head (sep : Char) (l : List Char) :
    (goSplit sep l).headD [] = l.takeWhile (fun c => c ≠ sep) := by
  induction l with
  | nil => rfl
  | cons c cs ih =>
    rw [goSplit, List.takeWhile]
    by_cases h : c = sep
    · simp [h]
    · cases hr : goSplit sep cs with
      | nil => exact absurd hr (goSplit_ne_nil sep cs)
      | cons r rs =>
        rw [hr] at ih
        simp only [List.headD] at ih
        simp [h, hr, ih]

theorem extractUserId_eq (email : String) :
    extractUserId email = userIdSpec email := by
  rw [extractUserId, userIdSpec]
  have hne := goSplit_ne_nil '@' email.data
  have hh := goSplit_head '@' email.data
  cases hr : goSplit '@' email.data with
  | nil => exact absurd hr hne
  | cons p rest =>
    rw [hr] at hh
    simp only [List.headD] at hh
    simp [hh]

/-! ## Lifecycle Orchestrator (main.go lines 103-217)

Each HTTP handler is embedded as a function from the decoded request body
(`Except String CreateServerRequest`, `.error` standing for a JSON decode
failure) and an `Env` of external oracles to the pair of the written
response and the ordered list of side effects performed.  The `Env` fields
model, respectively, running a subprocess and capturing its combined
output (`exec.Command(...).CombinedOutput()`), `os.MkdirAll` (`none` on
success, `some err` on failure), and `filepath.Abs`. -/

/-- Request body decoded by the create/start/stop/restart handlers
(struct `CreateServerRequest`, main.go 21-28). -/
structure CreateServerRequest where
  serverName : String
  userEmail : String
  typ : String
  software : String
  ram : String
  storage : String
deriving DecidableEq

/-- Result of one subprocess invocation: whether it exited zero, its
combined stdout and stderr text, and the text of the Go error value. -/
structure ExecResult where
  ok : Bool
  output : String
  errMsg : String
deriving DecidableEq

/-- External oracles a lifecycle handler interacts with. -/
structure Env where
  run : List String → ExecResult
  mkdir : String → Option String
  absPath : String → Except String String

/-- Observable side effect of a lifecycle handler, in program order. -/
inductive Effect where
  | mkdirAll (path : String)
  | execCmd (args : List String)
deriving DecidableEq

/-- Response written by a lifecycle handler: an `http.Error` with a status
code and message, the JSON-encoded `GenericResponse`, or the JSON-encoded
`CreateServerResponse`. -/
inductive HandlerResp where
  | httpError (code : Nat) (msg : String)
  | okGeneric (message : String)
  | okCreate (serverId : String) (message : String)
deriving DecidableEq

/-- Model of `filepath.Join("volume", name)` for a sanitized container
name.  A sanitized name contains no path separator; the only cleaning
`Join` performs here is collapsing the empty component. -/
def joinVolume (name : String) : String :=
  if name = "" then "volume" else "volume" ++ "/" ++ name

/-- Model of Go `strings.ToUpper` on ASCII input (main.go 142). -/
def goToUpper (s : String) : String :=
  ⟨s.data.map Char.toUpper⟩

/-- Single-quote character, ASCII 39, written numerically. -/
def squote : String := String.singleton (Char.ofNat 39)

/-- Wraps a string in single quotes, as the format string
"Server container created with image ..." does in main.go 156. -/
def quoted (s : String) : String := squote ++ s ++ squote

/-- Argument vector of the `docker pull` invocation in the create handler
(main.go 132). -/
def pullArgs (req : CreateServerRequest) : List String :=
  ["docker", "pull", selectImage req.software]

/-- Argument vector of the `docker create` invocation in the create
handler (main.go 137-147). -/
def createArgs (req : CreateServerRequest) (volumePath : String) :
    List String :=
  let containerId :=
    buildContainerId req.serverName (extractUserId req.userEmail)
  ["docker", "create",
   "--name", containerId,
   "-v", volumePath ++ ":/data",
   "-e", "EULA=TRUE",
   "-e", "TYPE=" ++ goToUpper req.software,
   "-e", "MEMORY=" ++ req.ram,
   "-e", "STORAGE=" ++ req.storage,
   "--restart", "unless-stopped",
   selectImage req.software]

/-- Embedding of `createServerHandler` (main.go 103-160).  The method
check is outside the model (every call models a POST). -/
def createServerHandler (env : Env)
    (body : Except String CreateServerRequest) :
    HandlerResp × List Effect :=
  match body with
  | .error _ => (.httpError 400 "Invalid JSON body", [])
  | .ok req =>
    if req.serverName = "" ∨ req.userEmail = "" ∨ req.software = "" then
      (.httpError 400 "serverName, userEmail, and software required", [])
    else
      let userId := extractUserId req.userEmail
      let containerId := buildContainerId req.serverName userId
      match env.absPath (joinVolume containerId) with
      | .error e =>
        (.httpError 500 ("Failed to get absolute volume path: " ++ e), [])
      | .ok volumePath =>
        match env.mkdir volumePath with
        | some e =>
          (.httpError 500 ("Failed to create volume: " ++ e),
           [.mkdirAll volumePath])
        | none =>
          let pullRes := env.run (pullArgs req)
          if pullRes.ok then
            let cRes := env.run (createArgs req volumePath)
            if cRes.ok then
              (.okCreate containerId
                ("Server container created with image " ++
                  quoted (selectImage req.software)),
               [.mkdirAll volumePath, .execCmd (pullArgs req),
                .execCmd (createArgs req volumePath)])
            else
              (.httpError 500
                ("Failed to create docker container: " ++ cRes.output),
               [.mkdirAll volumePath, .execCmd (pullArgs req),
                .execCmd (createArgs req volumePath)])
          else
            (.httpError 500
              ("Failed to pull docker image: " ++ pullRes.output),
             [.mkdirAll volumePath, .execCmd (pullArgs req)])

/-- Embedding of `startServerHandler` (main.go 162-179): validate, resolve
the identity, run a single `docker start` and report its outcome.  No
existence query and no volume-directory creation appear in the source. -/
def startServerHandler (env : Env)
    (body : Except String CreateServerRequest) :
    HandlerResp × List Effect :=
  match body with
  | .error _ => (.httpError 400 "Invalid JSON body", [])
  | .ok req =>
    if req.serverName = "" ∨ req.userEmail = "" then
      (.httpError 400 "serverName and userEmail required", [])
    else
      let containerId :=
        buildContainerId req.serverName (extractUserId req.userEmail)
      let res := env.run ["docker", "start", containerId]
      if res.ok then
        (.okGeneric "Server started",
         [.execCmd ["docker", "start", containerId]])
      else
        (.httpError 500 ("Failed to start container: " ++ res.output),
         [.execCmd ["docker", "start", containerId]])

/-- Embedding of `stopServerHandler` (main.go 181-198). -/
def stopServerHandler (env : Env)
    (body : Except String CreateServerRequest) :
    HandlerResp × List Effect :=
  match body with
  | .error _ => (.httpError 400 "Invalid JSON body", [])
  | .ok req =>
    if req.serverName = "" ∨ req.userEmail = "" then
      (.httpError 400 "serverName and userEmail required", [])
    else
      let containerId :=
        buildContainerId req.serverName (extractUserId req.userEmail)
      let res := env.run ["docker", "stop", containerId]
      if res.ok then
        (.okGeneric "Server stopped",
         [.execCmd ["docker", "stop", containerId]])
      else
        (.httpError 500 ("Failed to stop container: " ++ res.output),
         [.execCmd ["docker", "stop", containerId]])

/-! ## Console Bridge (main.go lines 320-403)

The websocket handler is embedded as a function of: a `parse` oracle
modelling `json.Unmarshal` into `ConsolePayload` (`none` on a decode
error), a `run` oracle for `exec.Command(...).CombinedOutput()`, two
booleans for the success of `logCmd.StdoutPipe()` and `logCmd.Start()`,
and the list of inbound text frames (the list ending models
`conn.ReadMessage()` failing, i.e. the peer disconnecting).  It returns
the ordered list of effects of the main task; the concurrent log-relay
goroutine only copies subprocess output to the socket and is not part of
any claim, so its interleaved output frames are not modelled. -/

/-- Fields of the `ConsolePayload` struct (main.go 328-333); absent JSON
fields decode to the empty string, as in Go. -/
structure ConsolePayload where
  serverName : String
  userEmail : String
  command : String
  action : String
deriving DecidableEq

/-- Observable effect of the console bridge main task, in program order. -/
inductive BridgeEffect where
  | sendFrame (text : String)
  | spawnLogFollow (args : List String)
  | execCommand (args : List String)
  | killLogFollow
deriving DecidableEq

/-- Embedding of the command loop of `consoleHandler` (main.go 379-400):
for each inbound frame, a decode failure sends one error frame and
continues; a decoded payload with action "command" and a non-empty
command runs `docker exec <id> rcon-cli <command>` and sends its combined
output (or the failure text) as one frame; any other payload is ignored.
The loop never terminates the session itself — it ends only when the
frame list ends (inbound read failure). -/
def commandLoop (run : List String → ExecResult)
    (parse : String → Option ConsolePayload) (containerId : String) :
    List String → List BridgeEffect
  | [] => []
  | msg :: rest =>
    match parse msg with
    | none =>
      .sendFrame "Invalid command payload" ::
        commandLoop run parse containerId rest
    | some p =>
      if p.action = "command" ∧ p.command ≠ "" then
        let args := ["docker", "exec", containerId, "rcon-cli", p.command]
        let res := run args
        if res.ok then
          .execCommand args :: .sendFrame res.output ::
            commandLoop run parse containerId rest
        else
          .execCommand args ::
            .sendFrame ("Command failed: " ++ res.errMsg ++ "\n" ++
              res.output) ::
            commandLoop run parse containerId rest
      else
        commandLoop run parse containerId rest

/-- Spec-side description of the effects the command loop produces for one
inbound frame, used to state that the loop handles frames independently
(no frame closes the session). -/
def frameEffects (run : List String → ExecResult)
    (parse : String → Option ConsolePayload) (containerId : String)
    (msg : String) : List BridgeEffect :=
  match parse msg with
  | none => [.sendFrame "Invalid command payload"]
  | some p =>
    if p.action = "command" ∧ p.command ≠ "" then
      let args := ["docker", "exec", containerId, "rcon-cli", p.command]
      let res := run args
      if res.ok then [.execCommand args, .sendFrame res.output]
      else [.execCommand args,
        .sendFrame ("Command failed: " ++ res.errMsg ++ "\n" ++ res.output)]
    else []

/-- Embedding of `consoleHandler` (main.go 320-403).  An empty frame list
models the initial `ReadMessage` failing (the handler returns silently);
a decode failure on the first frame sends "Invalid init JSON" and
returns; otherwise the identity is resolved from the decoded payload, the
log-follow subprocess `docker logs -f <id>` is spawned (its pipe setup
and start may fail, each sending one error frame and returning), the
command loop runs over the remaining frames, and on loop exit the
log-follow subprocess is killed. -/
def consoleHandler (run : List String → ExecResult)
    (parse : String → Option ConsolePayload)
    (pipeOk startOk : Bool) (frames : List String) : List BridgeEffect :=
  match frames with
  | [] => []
  | initMsg :: rest =>
    match parse initMsg with
    | none => [.sendFrame "Invalid init JSON"]
    | some init =>
      let containerId :=
        buildContainerId init.serverName (extractUserId init.userEmail)
      if pipeOk then
        if startOk then
          .spawnLogFollow ["docker", "logs", "-f", containerId] ::
            (commandLoop run parse containerId rest ++ [.killLogFollow])
        else [.sendFrame "Failed to start log stream"]
      else [.sendFrame "Failed to attach to logs"]

theorem filter_self_filter (p : Char → Bool) (l : List Char) :
    (l.filter p).filter p = l.filter p := by
  induction l with
  | nil => rfl
  | cons c cs ih =>
    by_cases h : p c = true
    · simp [List.filter_cons, h, ih]
    · simp [List.filter_cons, h, ih]

/-- C1: The resolved container identity equals
`sanitize(serverName ++ "-" ++ userId)` where `userId` is the substring of
the email before the first "@" (the whole string when no "@" is present)
and `sanitize` removes every character outside `[A-Za-z0-9.-]`; concretely,
resolving ("lobby", "alice@example.com") yields "lobby-alice". -/
theorem resolve_identity_formula :
    (∀ serverName userEmail : String,
      buildContainerId serverName (extractUserId userEmail) =
        sanitizeDockerName (serverName ++ "-" ++ userIdSpec userEmail)) ∧
    buildContainerId "lobby" (extractUserId "alice@example.com") =
      "lobby-alice" := by
  constructor
  · intro serverName userEmail
    rw [buildContainerId, extractUserId_eq]
  · decide

/-- C7: Sanitization is idempotent:
`sanitizeDockerName (sanitizeDockerName x) = sanitizeDockerName x` for every
string `x`. -/
theorem sanitize_idempotent (x : String) :
    sanitizeDockerName (sanitizeDockerName x) = sanitizeDockerName x := by
  rw [sanitizeDockerName, sanitizeDockerName]
  exact congrArg String.mk (filter_self_filter isDockerNameChar x.data)

/-- C9: The image chosen by the create handler is the constant
"itzg/minecraft-server:latest" for every value of the software option:
`selectImage` ignores its argument, the pulled image is that constant, and
two create commands that differ only in the software field differ only in
the TYPE environment-variable argument (position 9 of the argument
vector). -/
theorem selectImage_ignores_software :
    (∀ software : String,
      selectImage software = "itzg/minecraft-server:latest") ∧
    (∀ req : CreateServerRequest,
      pullArgs req = ["docker", "pull", "itzg/minecraft-server:latest"]) ∧
    (∀ (req : CreateServerRequest) (vp s1 s2 : String),
      createArgs { req with software := s1 } vp =
        (createArgs { req with software := s2 } vp).set 9
          ("TYPE=" ++ goToUpper s1)) := by
  refine ⟨fun _ => rfl, fun _ => rfl, fun req vp s1 s2 => ?_⟩
  simp [createArgs, List.set, selectImage]

/-- C4: for every valid Stop request whose `docker stop` subprocess fails
(as the runtime does when the container was never created), the stop
handler returns an HTTP 500 failure whose message carries the combined
output of the subprocess — the RuntimeCommandFailed kind — and never a
success response; the runtime error is forwarded, not suppressed. -/
theorem stop_forwards_runtime_failure (env : Env)
    (req : CreateServerRequest)
    (hs : req.serverName ≠ "") (he : req.userEmail ≠ "")
    (hfail : (env.run ["docker", "stop",
      buildContainerId req.serverName (extractUserId req.userEmail)]).ok
        = false) :
    stopServerHandler env (.ok req) =
      (.httpError 500 ("Failed to stop container: " ++
        (env.run ["docker", "stop",
          buildContainerId req.serverName
            (extractUserId req.userEmail)]).output),
       [.execCmd ["docker", "stop",
         buildContainerId req.serverName
           (extractUserId req.userEmail)]]) := by
  simp [stopServerHandler, hs, he, hfail]

/-- Witness for C4: stopping the never-created identity lobby-alice under
a runtime that rejects the stop returns the 500 failure with the runtime
output, not success. -/
theorem stop_forwards_runtime_failure_witness :
    stopServerHandler
      ⟨fun _ => ⟨false, "No such container: lobby-alice", "exit status 1"⟩,
       fun _ => none, fun p => .ok p⟩
      (.ok ⟨"lobby", "alice@example.com", "", "VANILLA", "2G", "10G"⟩) =
      (.httpError 500
        "Failed to stop container: No such container: lobby-alice",
       [.execCmd ["docker", "stop", "lobby-alice"]]) := by
  have h := stop_forwards_runtime_failure
    ⟨fun _ => ⟨false, "No such container: lobby-alice", "exit status 1"⟩,
     fun _ => none, fun p => .ok p⟩
    ⟨"lobby", "alice@example.com", "", "VANILLA", "2G", "10G"⟩
    (by decide) (by decide) rfl
  rw [h]
  decide

/-- C2 counterexample: at the valid request (serverName "lobby", userEmail
"alice@example.com") and a runtime on which every command fails (as
`docker start` does for an absent container), the start handler performs
exactly one side effect — the single command `docker start lobby-alice` —
so it neither queries the runtime for existence nor creates the volume
directory, and it answers HTTP 500 instead of falling back to a full run:
the claimed query-provision-branch behaviour is absent. -/
theorem start_counterexample :
    startServerHandler
      ⟨fun _ => ⟨false, "Error: No such container: lobby-alice",
        "exit status 1"⟩,
       fun _ => none, fun p => .ok p⟩
      (.ok ⟨"lobby", "alice@example.com", "", "VANILLA", "2G", "10G"⟩) =
      (.httpError 500
        "Failed to start container: Error: No such container: lobby-alice",
       [.execCmd ["docker", "start", "lobby-alice"]]) := by
  decide

/-- C2 amended: for every valid Start request the handler performs exactly
one side effect, a plain `docker start` on the resolved identity — it
performs no existence query and no volume-directory creation — and it
succeeds exactly when that single runtime command succeeds, so Start on a
never-created identity fails with HTTP 500 carrying the runtime output
rather than self-provisioning. -/
theorem start_plain_start_only (env : Env) (req : CreateServerRequest)
    (hs : req.serverName ≠ "") (he : req.userEmail ≠ "") :
    (startServerHandler env (.ok req)).2 =
      [.execCmd ["docker", "start",
        buildContainerId req.serverName (extractUserId req.userEmail)]] ∧
    ((env.run ["docker", "start",
        buildContainerId req.serverName (extractUserId req.userEmail)]).ok
          = true →
      (startServerHandler env (.ok req)).1 = .okGeneric "Server started") ∧
    ((env.run ["docker", "start",
        buildContainerId req.serverName (extractUserId req.userEmail)]).ok
          = false →
      (startServerHandler env (.ok req)).1 =
        .httpError 500 ("Failed to start container: " ++
          (env.run ["docker", "start",
            buildContainerId req.serverName
              (extractUserId req.userEmail)]).output)) := by
  refine ⟨?_, fun h => ?_, fun h => ?_⟩
  · cases h : (env.run ["docker", "start",
      buildContainerId req.serverName (extractUserId req.userEmail)]).ok <;>
      simp [startServerHandler, hs, he, h]
  · simp [startServerHandler, hs, he, h]
  · simp [startServerHandler, hs, he, h]

/-- Witness for the amended C2: on a runtime that accepts the start, the
valid request (serverName "lobby", userEmail "alice@example.com") produces
exactly the single effect of the plain start command. -/
theorem start_plain_start_only_witness :
    (startServerHandler
      ⟨fun _ => ⟨true, "", ""⟩, fun _ => none, fun p => .ok p⟩
      (.ok ⟨"lobby", "alice@example.com", "", "VANILLA", "2G", "10G"⟩)).2 =
      [.execCmd ["docker", "start", "lobby-alice"]] := by
  have h := start_plain_start_only
    ⟨fun _ => ⟨true, "", ""⟩, fun _ => none, fun p => .ok p⟩
    ⟨"lobby", "alice@example.com", "", "VANILLA", "2G", "10G"⟩
    (by decide) (by decide)
  rw [h.1]
  decide

/-- C3 counterexample: at the valid request (serverName "lobby", userEmail
"alice@example.com", software "VANILLA") and a runtime whose `docker
create` exits non-zero reporting the container name already in use (while
`docker pull` succeeds), the create handler answers HTTP 500 carrying the
runtime output — the runtime reporting an existing definition is treated
as an error, not as idempotent success. -/
theorem create_counterexample :
    createServerHandler
      ⟨fun args => if args.getD 1 "" = "create"
          then ⟨false,
            "Conflict. The container name lobby-alice is already in use",
            "exit status 125"⟩
          else ⟨true, "", ""⟩,
       fun _ => none, fun p => .ok p⟩
      (.ok ⟨"lobby", "alice@example.com", "", "VANILLA", "2G", "10G"⟩) =
      (.httpError 500
        ("Failed to create docker container: " ++
          "Conflict. The container name lobby-alice is already in use"),
       [.mkdirAll "volume/lobby-alice",
        .execCmd ["docker", "pull", "itzg/minecraft-server:latest"],
        .execCmd ["docker", "create", "--name", "lobby-alice",
          "-v", "volume/lobby-alice:/data", "-e", "EULA=TRUE",
          "-e", "TYPE=VANILLA", "-e", "MEMORY=2G", "-e", "STORAGE=10G",
          "--restart", "unless-stopped",
          "itzg/minecraft-server:latest"]]) := by
  decide

/-- C3 amended: Create is not idempotent. For every valid Create request
whose `docker create` subprocess exits non-zero — which is what the
runtime does when a container definition with that name already exists —
the handler returns HTTP 500 carrying the combined subprocess output
rather than success, so a second Create for the same identity fails. -/
theorem create_fails_on_existing_name (env : Env)
    (req : CreateServerRequest)
    (hs : req.serverName ≠ "") (he : req.userEmail ≠ "")
    (hw : req.software ≠ "") (vp : String)
    (habs : env.absPath (joinVolume
      (buildContainerId req.serverName (extractUserId req.userEmail)))
        = .ok vp)
    (hmk : env.mkdir vp = none)
    (hpull : (env.run (pullArgs req)).ok = true)
    (hcreate : (env.run (createArgs req vp)).ok = false) :
    createServerHandler env (.ok req) =
      (.httpError 500 ("Failed to create docker container: " ++
        (env.run (createArgs req vp)).output),
       [.mkdirAll vp, .execCmd (pullArgs req),
        .execCmd (createArgs req vp)]) := by
  simp [createServerHandler, hs, he, hw, habs, hmk, hpull, hcreate]

/-- Witness for the amended C3: a concrete valid request under a runtime
that reports a name conflict on create yields the 500 failure with the
runtime output. -/
theorem create_fails_on_existing_name_witness :
    createServerHandler
      ⟨fun args => if args.getD 1 "" = "create"
          then ⟨false,
            "Conflict. The container name pvp-bob is already in use",
            "exit status 125"⟩
          else ⟨true, "", ""⟩,
       fun _ => none, fun p => .ok p⟩
      (.ok ⟨"pvp", "bob", "", "FABRIC", "4G", "20G"⟩) =
      (.httpError 500
        ("Failed to create docker container: " ++
          "Conflict. The container name pvp-bob is already in use"),
       [.mkdirAll "volume/pvp-bob",
        .execCmd ["docker", "pull", "itzg/minecraft-server:latest"],
        .execCmd ["docker", "create", "--name", "pvp-bob",
          "-v", "volume/pvp-bob:/data", "-e", "EULA=TRUE",
          "-e", "TYPE=FABRIC", "-e", "MEMORY=4G", "-e", "STORAGE=20G",
          "--restart", "unless-stopped",
          "itzg/minecraft-server:latest"]]) := by
  have h := create_fails_on_existing_name
    ⟨fun args => if args.getD 1 "" = "create"
        then ⟨false,
          "Conflict. The container name pvp-bob is already in use",
          "exit status 125"⟩
        else ⟨true, "", ""⟩,
     fun _ => none, fun p => .ok p⟩
    ⟨"pvp", "bob", "", "FABRIC", "4G", "20G"⟩
    (by decide) (by decide) (by decide) "volume/pvp-bob"
    rfl rfl (by decide) (by decide)
  rw [h]
  decide

/-- C8: `extractUserId` is total and its fallback branch is unreachable:
for every input string the split on "@" yields at least one element, so the
function returns the part before the first "@" (the whole string when no
"@" is present) and the sentinel branch returning "user" is never taken. -/
theorem extractUserId_total_no_fallback (email : String) :
    goSplit '@' email.data ≠ [] ∧ extractUserId email = userIdSpec email :=
  ⟨goSplit_ne_nil '@' email.data, extractUserId_eq email⟩

/-- C5: when the first inbound frame of a console connection does not
decode as the control message, the bridge produces exactly one effect —
the single error frame "Invalid init JSON" — and returns (the deferred
close then closes the connection): no log-follow subprocess is spawned
and no command is executed, for every runtime oracle and every pipe/start
outcome. -/
theorem console_malformed_init (run : List String → ExecResult)
    (parse : String → Option ConsolePayload) (pipeOk startOk : Bool)
    (initMsg : String) (rest : List String)
    (hbad : parse initMsg = none) :
    consoleHandler run parse pipeOk startOk (initMsg :: rest) =
      [BridgeEffect.sendFrame "Invalid init JSON"] := by
  simp [consoleHandler, hbad]

/-- Witness for C5: a parse oracle rejecting every frame yields exactly
the one error frame, even with further inbound frames pending. -/
theorem console_malformed_init_witness :
    consoleHandler (fun _ => ⟨true, "", ""⟩) (fun _ => none) true true
      ["not a control message", "later frame"] =
      [BridgeEffect.sendFrame "Invalid init JSON"] :=
  console_malformed_init (fun _ => ⟨true, "", ""⟩) (fun _ => none)
    true true "not a control message" ["later frame"] rfl

/-- C6: the attached command loop handles every inbound frame
independently (its effects are the concatenation of per-frame effects, so
no frame closes the session), and for one frame: an in-container command
execution is triggered iff the frame decodes to a payload with action
"command" and a non-empty command; a frame that fails to decode produces
exactly one error frame; a decoded frame with any other action (or an
empty command) produces nothing. -/
theorem commandLoop_frame_semantics (run : List String → ExecResult)
    (parse : String → Option ConsolePayload) (cid : String) :
    (∀ frames : List String,
      commandLoop run parse cid frames =
        frames.flatMap (frameEffects run parse cid)) ∧
    (∀ msg : String,
      ((∃ args, BridgeEffect.execCommand args ∈
          frameEffects run parse cid msg) ↔
        ∃ p, parse msg = some p ∧ p.action = "command" ∧ p.command ≠ "") ∧
      (parse msg = none →
        frameEffects run parse cid msg =
          [.sendFrame "Invalid command payload"]) ∧
      (∀ p, parse msg = some p →
        ¬ (p.action = "command" ∧ p.command ≠ "") →
        frameEffects run parse cid msg = [])) := by
  constructor
  · intro frames
    induction frames with
    | nil => rfl
    | cons msg rest ih =>
      rw [List.flatMap_cons, ← ih, commandLoop]
      cases hp : parse msg with
      | none => simp [frameEffects, hp]
      | some p =>
        by_cases h : p.action = "command" ∧ p.command ≠ ""
        · obtain ⟨ha, hc⟩ := h
          cases hr : (run ["docker", "exec", cid, "rcon-cli",
              p.command]).ok <;>
            simp [frameEffects, hp, ha, hc, hr]
        · simp [frameEffects, hp, h]
  · intro msg
    refine ⟨?_, fun hn => by simp [frameEffects, hn], ?_⟩
    · cases hp : parse msg with
      | none =>
        simp only [frameEffects, hp]
        constructor
        · rintro ⟨args, hmem⟩
          simp at hmem
        · rintro ⟨q, hq, hqa⟩
          exact absurd hq (by simp)
      | some p =>
        by_cases h : p.action = "command" ∧ p.command ≠ ""
        · constructor
          · intro _; exact ⟨p, rfl, h⟩
          · intro _
            obtain ⟨ha, hc⟩ := h
            refine ⟨["docker", "exec", cid, "rcon-cli", p.command], ?_⟩
            cases hr : (run ["docker", "exec", cid, "rcon-cli",
                p.command]).ok <;>
              simp [frameEffects, hp, ha, hc, hr]
        · constructor
          · rintro ⟨args, hmem⟩
            simp only [frameEffects, hp] at hmem
            rw [if_neg h] at hmem
            exact absurd hmem (List.not_mem_nil _)
          · rintro ⟨q, hq, hqa, hqc⟩
            injection hq with hq
            subst hq
            exact absurd ⟨hqa, hqc⟩ h
    · intro p hp h
      simp only [frameEffects, hp]
      rw [if_neg h]

/-- Witness for C6: with a parse oracle decoding "cmd" to a command
payload, "sub" to a payload with a different action, and rejecting
everything else, the loop over three frames executes exactly the one
command, reports the undecodable frame in-band, continues past it, and
ignores the other action. -/
theorem commandLoop_frame_semantics_witness :
    commandLoop (fun _ => ⟨true, "pong", ""⟩)
      (fun s => if s = "cmd" then some ⟨"", "", "say hi", "command"⟩
        else if s = "sub" then some ⟨"", "", "", "subscribe"⟩
        else none)
      "lobby-alice" ["cmd", "junk", "sub"] =
      [BridgeEffect.execCommand
        ["docker", "exec", "lobby-alice", "rcon-cli", "say hi"],
       BridgeEffect.sendFrame "pong",
       BridgeEffect.sendFrame "Invalid command payload"] := by
  rw [(commandLoop_frame_semantics (fun _ => ⟨true, "pong", ""⟩)
    (fun s => if s = "cmd" then some ⟨"", "", "say hi", "command"⟩
      else if s = "sub" then some ⟨"", "", "", "subscribe"⟩
      else none)
    "lobby-alice").1 ["cmd", "junk", "sub"]]
  decide

/-- C10: the bridge performs no field validation on a decodable first
frame: for every first frame whose decode succeeds — including payloads
whose serverName and userEmail are empty or absent — the session attaches,
spawning the log-follow subprocess on the identity derived from those
fields, and sends no error frame; with all fields empty the bound identity
is the string "-". -/
theorem console_attaches_without_validation
    (run : List String → ExecResult)
    (parse : String → Option ConsolePayload)
    (initMsg : String) (rest : List String) (init : ConsolePayload)
    (hok : parse initMsg = some init) :
    consoleHandler run parse true true (initMsg :: rest) =
      BridgeEffect.spawnLogFollow ["docker", "logs", "-f",
        buildContainerId init.serverName (extractUserId init.userEmail)] ::
        (commandLoop run parse
          (buildContainerId init.serverName (extractUserId init.userEmail))
          rest ++ [BridgeEffect.killLogFollow]) ∧
    buildContainerId "" (extractUserId "") = "-" := by
  refine ⟨?_, by decide⟩
  simp [consoleHandler, hok]

/-- Witness for C10: a first frame decoding to the all-empty payload
attaches and spawns the log follower on the identity "-". -/
theorem console_attaches_without_validation_witness :
    consoleHandler (fun _ => ⟨true, "", ""⟩)
      (fun _ => some ⟨"", "", "", ""⟩) true true ["first frame"] =
      [BridgeEffect.spawnLogFollow ["docker", "logs", "-f", "-"],
       BridgeEffect.killLogFollow] := by
  rw [(console_attaches_without_validation (fun _ => ⟨true, "", ""⟩)
    (fun _ => some ⟨"", "", "", ""⟩) "first frame" []
    ⟨"", "", "", ""⟩ rfl).1]
  decide

end Wings
